import Mathlib

/-!
Verification of the user-service backend (registration, login, profile
update/delete) against its specification. The controllers
(src/controllers/user.controller.ts) and the password validator
(src/utils/validators.ts) are embedded directly from the source; the service
layer (src/services/user.service.ts), the authorization middleware
(src/middlewares/auth.middleware.ts) and the external bcrypt/jsonwebtoken
libraries are not part of the available sources and are modelled from the
spec's words, as marked on each definition.
-/

namespace UserService

/-! ## Character classes of the password regex

src/utils/validators.ts: isValidPassword tests the JavaScript regex
  /^(?=.*[a-z])(?=.*[A-Z])(?=.*[\W_]).{8,}$/
Its character classes are ASCII: [a-z], [A-Z], and [\W_] which, since
\w = [A-Za-z0-9_], is exactly the complement of [A-Za-z0-9]. In a JavaScript
regex without the s flag, the dot . matches every character except the four
line terminators LF, CR, U+2028 and U+2029, and $ (without the m flag)
matches only at the end of the string. -/

def isLowerAscii (c : Char) : Bool := decide ('a' ≤ c) && decide (c ≤ 'z')

def isUpperAscii (c : Char) : Bool := decide ('A' ≤ c) && decide (c ≤ 'Z')

def isDigitAscii (c : Char) : Bool := decide ('0' ≤ c) && decide (c ≤ '9')

/-- The class [\W_] of the regex: any character that is neither an ASCII
letter nor an ASCII digit. -/
def isSpecialChar (c : Char) : Bool :=
  !(isLowerAscii c || isUpperAscii c || isDigitAscii c)

/-- The characters the JavaScript dot refuses: LF, CR, U+2028, U+2029. -/
def isLineTerminator (c : Char) : Bool :=
  c == '\n' || c == '\r' || c.val == 0x2028 || c.val == 0x2029

/-- What the JavaScript dot matches (no s flag): any non-line-terminator. -/
def jsDot (c : Char) : Bool := !(isLineTerminator c)

/-- Semantics of the lookahead (?=.*[class]) applied at position 0: there is a
position whose character is in the class and every character before it is
matched by the dot. -/
def dotStarLookahead (pred : Char → Bool) : List Char → Bool
  | [] => false
  | c :: cs => pred c || (jsDot c && dotStarLookahead pred cs)

/-- src/utils/validators.ts isValidPassword: the regex
/^(?=.*[a-z])(?=.*[A-Z])(?=.*[\W_]).{8,}$/ tested on the whole string.
The three lookaheads apply at position 0; the anchored body .{8,}$ matches
exactly when the string consists of at least 8 characters, none of which is a
line terminator. -/
def isValidPassword (p : String) : Bool :=
  dotStarLookahead isLowerAscii p.data &&
  dotStarLookahead isUpperAscii p.data &&
  dotStarLookahead isSpecialChar p.data &&
  (decide (8 ≤ p.data.length) && p.data.all jsDot)

/-! ## Stored string values and bcrypt

The stored password field is a string: either a raw string persisted as-is, or
the output of bcrypt.hash. bcrypt (external library) is modelled symbolically:
a hash value remembers the hashed plaintext and a salt token (hash is salted,
so repeated calls differ in the salt); bcrypt.compare succeeds exactly on the
hashed plaintext and fails on any string that is not a bcrypt hash. -/

inductive SVal where
  | lit : String → SVal
  | bhash : String → Nat → SVal
deriving DecidableEq

/-- bcrypt.hash(plain, 10) (external library, symbolic): cost factor fixed at
10 in the source; the salt token models the salt's nondeterminism. -/
def bcryptHash (plain : String) (salt : Nat) : SVal := .bhash plain salt

/-- bcrypt.compare (external library, symbolic): true exactly when the stored
value is a hash of the submitted plaintext; a raw string is not a well-formed
bcrypt hash, so comparison against it fails. -/
def bcryptCompare (plain : String) (stored : SVal) : Bool :=
  match stored with
  | .bhash p _ => plain == p
  | .lit _ => false

/-- True exactly on values produced by the credential hasher. -/
def isHasherOutput : SVal → Bool
  | .bhash _ _ => true
  | .lit _ => false

/-! ## The user model and the store -/

/-- src/models/user.model.ts User (as used by the controller): firstName,
lastName, age, email, password, createdAt. The password field holds whatever
string the controller stores there. -/
structure User where
  firstName : String
  lastName : String
  age : Nat
  email : String
  password : SVal
  createdAt : Nat
deriving DecidableEq

/-- src/controllers/user.controller.ts UserWithId: User plus the store's
document id. -/
structure UserWithId extends User where
  id : String
deriving DecidableEq

/-- The users collection of the store. -/
abbrev Store := List UserWithId

/-- Modelled from the spec: findUserByEmailService of
src/services/user.service.ts (not among the sources). Spec §2: the User
Credential Store "persists user records keyed by email/id; the core only
requires lookup-by-email". -/
def findUserByEmailService (store : Store) (email : String) : Option UserWithId :=
  store.find? (fun u => u.email == email)

/-- Modelled from the spec: createUserService of src/services/user.service.ts
(not among the sources). Spec §3: the identifier is an "opaque unique string
(assigned by the store on creation)"; the store-chosen id is supplied as the
newId argument, the record is persisted and the new identifier returned. -/
def createUserService (store : Store) (u : User) (newId : String) : String × Store :=
  (newId, store ++ [{ u with id := newId }])

/-- One supplied field of a partial update overwrites the stored field;
an absent field leaves it. -/
structure UpdateData where
  firstName : Option String
  lastName : Option String
  age : Option Nat
  email : Option String
  password : Option SVal
deriving DecidableEq

def applyUpdate (d : UpdateData) (u : UserWithId) : UserWithId :=
  { u with
    firstName := d.firstName.getD u.firstName
    lastName := d.lastName.getD u.lastName
    age := d.age.getD u.age
    email := d.email.getD u.email
    password := d.password.getD u.password }

/-- Modelled from the spec: updateUserService of src/services/user.service.ts
(not among the sources). Spec §6: the update request carries "partial fields
incl. optional password"; each supplied field overwrites the stored one on the
record with the given id; the identifier itself is "stable for the record's
lifetime" (§3). -/
def updateUserService (store : Store) (uid : String) (d : UpdateData) : Store :=
  store.map (fun u => if u.id == uid then applyUpdate d u else u)

/-- Modelled from the spec: deleteUserService of src/services/user.service.ts
(not among the sources): removes the record with the given id. -/
def deleteUserService (store : Store) (uid : String) : Store :=
  store.filter (fun u => !(u.id == uid))

/-- Modelled from the spec: getUsersService of src/services/user.service.ts
(not among the sources): returns all records. -/
def getUsersService (store : Store) : List UserWithId := store

/-! ## Tokens and the environment -/

/-- The identity attached to a request by the middleware; the claims of a
session token (src/types/express/index.d.ts: req.user carries uid and email). -/
structure Claims where
  uid : String
  email : String
deriving DecidableEq

/-- A signed token (jsonwebtoken, symbolic): the claims payload, the secret
the token was signed with (standing for the HMAC signature), and the absolute
expiry instant. -/
structure Token where
  uid : String
  email : String
  secret : String
  exp : Nat
deriving DecidableEq

/-- jsonwebtoken sign({uid, email}, secret, {expiresIn}) (external library,
symbolic): the ttl argument is the duration the library derives from the
JWT_EXPIRES_IN string (default "1h"). -/
def jwtSign (uid email secret : String) (now ttl : Nat) : Token :=
  ⟨uid, email, secret, now + ttl⟩

/-- The part of process.env the login handler reads. -/
structure Env where
  jwtSecret : Option String
deriving DecidableEq

/-! ## JavaScript truthiness of request fields

A JSON body field is either absent (undefined) or present with a value.
The controllers guard fields with if (!x): for a string, undefined and ""
are falsy; for a number, undefined and 0 are falsy. -/

def truthyStr : Option String → Bool
  | none => false
  | some s => !(s == "")

def truthyNat : Option Nat → Bool
  | none => false
  | some n => !(n == 0)

/-- The value a destructured field variable holds; only read on paths where
the field is truthy, hence present. -/
def strVal (o : Option String) : String := o.getD ""

def natVal (o : Option Nat) : Nat := o.getD 0

/-! ## Responses -/

inductive RespBody where
  | msg : String → RespBody
  | err : String → RespBody
  | created : String → String → RespBody
  | token : Token → RespBody
  | users : List UserWithId → RespBody
deriving DecidableEq

structure Resp where
  status : Nat
  body : RespBody
deriving DecidableEq

/-! The literal response messages of src/controllers/user.controller.ts. -/

def msgAllFieldsRequired : String := "Todos los campos son obligatorios"

def msgWeakPassword : String :=
  "La contraseña debe tener al menos 8 caracteres, incluir letra mayúscula, minúscula y un caracter especial"

def msgEmailExists : String := "El correo ya está registrado"

def msgUserCreated : String := "Usuario creado correctamente"

def msgLoginFieldsRequired : String := "Email y contraseña requeridos"

def msgUserNotFound : String := "Usuario no encontrado"

def msgWrongPassword : String := "Contraseña incorrecta"

def msgNoSecret : String := "JWT_SECRET no definido"

def msgInvalidToken : String := "Token inválido"

def msgUserUpdated : String := "Usuario actualizado"

def msgUserDeleted : String := "Usuario eliminado correctamente"

/-! ## The controllers (src/controllers/user.controller.ts) -/

structure RegisterBody where
  firstName : Option String
  lastName : Option String
  age : Option Nat
  email : Option String
  password : Option String
deriving DecidableEq

/-- createUser: guard the five fields by truthiness, test the password regex,
reject a duplicate email, then persist the record — with the submitted
password stored as-is — and answer 201 with the store-assigned id. newId is
the id the store assigns on creation, now the current clock reading. -/
def createUser (body : RegisterBody) (store : Store) (newId : String) (now : Nat) :
    Resp × Store :=
  if !truthyStr body.email || !truthyStr body.password || !truthyStr body.firstName
      || !truthyStr body.lastName || !truthyNat body.age then
    (⟨400, .msg msgAllFieldsRequired⟩, store)
  else if !isValidPassword (strVal body.password) then
    (⟨400, .msg msgWeakPassword⟩, store)
  else
    match findUserByEmailService store (strVal body.email) with
    | some _ => (⟨400, .msg msgEmailExists⟩, store)
    | none =>
      let userData : User :=
        { firstName := strVal body.firstName
          lastName := strVal body.lastName
          age := natVal body.age
          email := strVal body.email
          password := .lit (strVal body.password)
          createdAt := now }
      let res := createUserService store userData newId
      (⟨201, .created res.1 msgUserCreated⟩, res.2)

structure LoginBody where
  email : Option String
  password : Option String
deriving DecidableEq

/-- loginUser: guard email and password by truthiness, look the record up by
email, compare the submitted password against the stored one with bcrypt,
then read JWT_SECRET — throwing (caught as a 500 error response) when it is
falsy — and answer 200 with the signed token. ttl is the duration
jsonwebtoken derives from JWT_EXPIRES_IN (default "1h"). -/
def loginUser (env : Env) (now ttl : Nat) (store : Store) (body : LoginBody) : Resp :=
  if !truthyStr body.email || !truthyStr body.password then
    ⟨400, .msg msgLoginFieldsRequired⟩
  else
    match findUserByEmailService store (strVal body.email) with
    | none => ⟨401, .msg msgUserNotFound⟩
    | some user =>
      if !bcryptCompare (strVal body.password) user.password then
        ⟨401, .msg msgWrongPassword⟩
      else if !truthyStr env.jwtSecret then
        ⟨500, .err msgNoSecret⟩
      else
        ⟨200, .token (jwtSign user.id user.email (strVal env.jwtSecret) now ttl)⟩

/-- The body of a profile update: the user-model fields, each optional, plus a
client-supplied id field that is not part of the user model. -/
structure UpdateBody where
  firstName : Option String
  lastName : Option String
  age : Option Nat
  email : Option String
  password : Option String
  id : Option String
deriving DecidableEq

/-- The controller's hashing step: if (data.password) replaces a truthy
password with its bcrypt hash; undefined stays undefined and the falsy empty
string is forwarded as-is. -/
def hashIfTruthy (p : Option String) (salt : Nat) : Option SVal :=
  match p with
  | none => none
  | some s => if s == "" then some (.lit s) else some (bcryptHash s salt)

def toUpdateData (body : UpdateBody) (salt : Nat) : UpdateData :=
  { firstName := body.firstName
    lastName := body.lastName
    age := body.age
    email := body.email
    password := hashIfTruthy body.password salt }

/-- updateUser: 401 when no identity is attached to the request; otherwise the
record targeted is req.user.uid, the body is forwarded to the service (the
password field hashed first when truthy) and the answer is 200. The URL
parameters are never read. -/
def updateUser (auth : Option Claims) (_prm : List (String × String))
    (body : UpdateBody) (store : Store) (salt : Nat) : Resp × Store :=
  match auth with
  | none => (⟨401, .msg msgInvalidToken⟩, store)
  | some u => (⟨200, .msg msgUserUpdated⟩, updateUserService store u.uid (toUpdateData body salt))

/-- deleteUser: 401 when no identity is attached; otherwise the record with id
req.user.uid is removed. The URL parameters are never read. -/
def deleteUser (auth : Option Claims) (_prm : List (String × String)) (store : Store) :
    Resp × Store :=
  match auth with
  | none => (⟨401, .msg msgInvalidToken⟩, store)
  | some u => (⟨200, .msg msgUserDeleted⟩, deleteUserService store u.uid)

/-- getUsers: answers every record; the handler never reads req.user. -/
def getUsers (store : Store) : Resp × Store :=
  (⟨200, .users (getUsersService store)⟩, store)

/-! ## The authorization middleware and the protected routes

src/middlewares/auth.middleware.ts is not among the sources; the middleware is
modelled from spec §4.4 and the token verifier from §4.3. The routes
(src/routes/user.routes.ts) put verifyToken in front of getUsers, updateUser
and deleteUser. -/

/-- The Authorization header of a request: absent, present but not a
well-formed token, or a bearer token. -/
inductive AuthHeader where
  | absent
  | malformed : String → AuthHeader
  | bearer : Token → AuthHeader
deriving DecidableEq

/-- Modelled from the spec: the Token Verifier (§4.3, jsonwebtoken verify):
claims are returned exactly when the signature matches the server's secret and
the expiry has not elapsed; otherwise InvalidToken or ExpiredToken, both of
which the middleware turns into an unauthorized response. -/
def verifyTok (serverSecret : String) (now : Nat) (t : Token) : Option Claims :=
  if t.secret == serverSecret && decide (now < t.exp) then some ⟨t.uid, t.email⟩ else none

/-- Modelled from the spec: the Authorization Middleware's resolution of an
identity (§4.4): no header or a malformed token yields none; a bearer token is
passed to the verifier. -/
def authenticate (serverSecret : String) (now : Nat) (hdr : AuthHeader) : Option Claims :=
  match hdr with
  | .absent => none
  | .malformed _ => none
  | .bearer t => verifyTok serverSecret now t

/-- Modelled from the spec: the middleware's short-circuit unauthorized
response (§4.4). -/
def respUnauthorized : Resp := ⟨401, .msg "No autorizado"⟩

/-- Modelled from the spec: the Authorization Middleware (§4.4): when no
identity resolves, short-circuit with the unauthorized response and the
protected handler never runs; on success the handler runs with the resolved
identity attached to the request context. -/
def withAuth (serverSecret : String) (now : Nat) (hdr : AuthHeader) (store : Store)
    (handler : Option Claims → Resp × Store) : Resp × Store :=
  match authenticate serverSecret now hdr with
  | none => (respUnauthorized, store)
  | some c => handler (some c)

/-- Route PUT /profile: verifyToken then updateUser. -/
def putProfileRoute (serverSecret : String) (now : Nat) (hdr : AuthHeader)
    (prm : List (String × String)) (body : UpdateBody) (store : Store) (salt : Nat) :
    Resp × Store :=
  withAuth serverSecret now hdr store (fun u => updateUser u prm body store salt)

/-- Route DELETE: verifyToken then deleteUser. -/
def deleteRoute (serverSecret : String) (now : Nat) (hdr : AuthHeader)
    (prm : List (String × String)) (store : Store) : Resp × Store :=
  withAuth serverSecret now hdr store (fun u => deleteUser u prm store)

/-- Route GET (list): verifyToken then getUsers; the handler ignores the
attached identity. -/
def listRoute (serverSecret : String) (now : Nat) (hdr : AuthHeader) (store : Store) :
    Resp × Store :=
  withAuth serverSecret now hdr store (fun _ => getUsers store)

/-! ## Sample data for concrete evaluations -/

/-- A record as the update flow would store it: the password field holds a
bcrypt hash of "Secret1!". -/
def sampleUser : UserWithId :=
  { firstName := "Ana", lastName := "Bon", age := 30, email := "a@b.com",
    password := .bhash "Secret1!" 37, createdAt := 5, id := "u1" }

def sampleLogin : LoginBody := ⟨some "a@b.com", some "Secret1!"⟩

/-- The same account but holding the hash of a different password. -/
def sampleUserOther : UserWithId := { sampleUser with password := .bhash "Otra9?pw" 3 }

/-! ## The claims as stated

For each claim the source refutes, the claim's own wording is first
formalised over the embedding, to be disproved at a concrete input. -/

/-- Claim C2 as stated: with email and password both present, the response to
an unknown email is identical to the response to a known email with a
non-matching password. -/
def loginIndistinguishableAsStated : Prop :=
  ∀ (env : Env) (now ttl : Nat) (body : LoginBody) (e p : String)
    (store1 store2 : Store) (u : UserWithId),
    body.email = some e → body.password = some p → e ≠ "" → p ≠ "" →
    findUserByEmailService store1 e = none →
    findUserByEmailService store2 e = some u →
    bcryptCompare p u.password = false →
    loginUser env now ttl store1 body = loginUser env now ttl store2 body

/-- Claim C3 as stated: the validator accepts exactly the strings of length at
least 8 holding a lowercase letter, an uppercase letter and a character that
is neither a letter nor a digit. -/
def passwordPolicyAsStated : Prop :=
  ∀ p : String,
    isValidPassword p = true ↔
      (8 ≤ p.length ∧ p.data.any isLowerAscii = true ∧
        p.data.any isUpperAscii = true ∧ p.data.any isSpecialChar = true)

/-- Claim C4 as stated: no login request with valid credentials is answered
with a 500 caused by the missing signing secret. -/
def secretNeverPerRequestAsStated : Prop :=
  ∀ (env : Env) (now ttl : Nat) (store : Store) (body : LoginBody)
    (e p : String) (u : UserWithId),
    body.email = some e → body.password = some p →
    findUserByEmailService store e = some u →
    bcryptCompare p u.password = true →
    (loginUser env now ttl store body).status ≠ 500

/-- Claim C5 as stated: createUser checks, in order, field presence (a field
is missing when the body does not carry it), the password policy — whose
rejection carries the rule-enumerating message — and email uniqueness, and
otherwise persists and answers 201 with the new identifier; no error path
creates a record. -/
def registrationFlowAsStated : Prop :=
  ∀ (body : RegisterBody) (store : Store) (newId : String) (now : Nat),
    ((body.firstName = none ∨ body.lastName = none ∨ body.age = none ∨
        body.email = none ∨ body.password = none) →
      (createUser body store newId now).1.status = 400 ∧
      (createUser body store newId now).2 = store) ∧
    (∀ f l a e p, body = ⟨some f, some l, some a, some e, some p⟩ →
      (isValidPassword p = false →
        createUser body store newId now = (⟨400, RespBody.msg msgWeakPassword⟩, store)) ∧
      (isValidPassword p = true →
        (∀ u, findUserByEmailService store e = some u →
          (createUser body store newId now).1.status = 400 ∧
          (createUser body store newId now).2 = store) ∧
        (findUserByEmailService store e = none →
          (createUser body store newId now).1.status = 201 ∧
          ∃ r, (createUser body store newId now).2 = store ++ [r] ∧ r.id = newId)))

/-- Claim C6 as stated: loginUser answers 400 when email or password is
missing from the body, 401 when no record exists or the password does not
verify, and otherwise 200 with a signed token carrying the record's id and
email. -/
def loginFlowAsStated : Prop :=
  ∀ (env : Env) (now ttl : Nat) (store : Store) (body : LoginBody),
    ((body.email = none ∨ body.password = none) →
      (loginUser env now ttl store body).status = 400) ∧
    (∀ e p, body.email = some e → body.password = some p →
      (findUserByEmailService store e = none →
        (loginUser env now ttl store body).status = 401) ∧
      (∀ u, findUserByEmailService store e = some u →
        (bcryptCompare p u.password = false →
          (loginUser env now ttl store body).status = 401) ∧
        (bcryptCompare p u.password = true →
          ∃ t : Token, loginUser env now ttl store body = ⟨200, RespBody.token t⟩ ∧
            t.uid = u.id ∧ t.email = u.email)))

/-- Claim C7 as stated: an authenticated update leaves every stored record's
email unchanged, whatever fields the client supplies. -/
def emailImmutableAsStated : Prop :=
  ∀ (u : Claims) (prm : List (String × String)) (body : UpdateBody)
    (store : Store) (salt : Nat),
    (updateUser (some u) prm body store salt).2.map (fun r => r.email) =
      store.map (fun r => r.email)

/-! ## Theorems -/

/-- On a string free of line terminators, the lookahead (?=.*[class]) holds
exactly when some character is in the class. -/
theorem dotStarLookahead_eq_any (pred : Char → Bool) (cs : List Char)
    (h : cs.all jsDot = true) : dotStarLookahead pred cs = cs.any pred := by
  induction cs with
  | nil => rfl
  | cons c cs ih =>
    simp only [List.all_cons, Bool.and_eq_true] at h
    simp [dotStarLookahead, h.1, ih h.2]

/-- Claim C3, amended: the validator accepts p exactly when p has length at
least 8, contains no line-terminator character, and contains a lowercase
ASCII letter, an uppercase ASCII letter and a character that is neither an
ASCII letter nor an ASCII digit; no maximum length is enforced. -/
theorem c3_password_policy_characterised (p : String) :
    isValidPassword p = true ↔
      (8 ≤ p.length ∧ p.data.all jsDot = true ∧ p.data.any isLowerAscii = true ∧
        p.data.any isUpperAscii = true ∧ p.data.any isSpecialChar = true) := by
  unfold isValidPassword
  constructor
  · intro h
    simp only [Bool.and_eq_true, decide_eq_true_eq] at h
    obtain ⟨⟨⟨h1, h2⟩, h3⟩, h4, h5⟩ := h
    rw [dotStarLookahead_eq_any _ _ h5] at h1
    rw [dotStarLookahead_eq_any _ _ h5] at h2
    rw [dotStarLookahead_eq_any _ _ h5] at h3
    exact ⟨h4, h5, h1, h2, h3⟩
  · intro h
    obtain ⟨h1, h2, h3, h4, h5⟩ := h
    simp only [Bool.and_eq_true, decide_eq_true_eq]
    rw [dotStarLookahead_eq_any _ _ h2, dotStarLookahead_eq_any _ _ h2,
      dotStarLookahead_eq_any _ _ h2]
    exact ⟨⟨⟨h3, h4⟩, h5⟩, h1, h2⟩

/-- Claim C3, counterexample: the string "aA!xxxx\n" has length 8, a
lowercase letter, an uppercase letter and two characters that are neither
letters nor digits, yet the validator rejects it, because the dot of the
anchored body .{8,}$ does not match the line feed. -/
theorem c3_newline_counterexample : ¬ passwordPolicyAsStated := by
  intro h
  have h8 : isValidPassword "aA!xxxx\n" = true :=
    (h "aA!xxxx\n").2 ⟨by decide, by decide, by decide, by decide⟩
  exact absurd h8 (by decide)

/-- Claim C1: contrary to the spec, createUser never calls the credential
hasher: on the spec's own example registration the persisted record's
password field is the submitted plaintext "Abcdefg!" verbatim, not a hasher
output. -/
theorem c1_plaintext_persisted :
    createUser ⟨some "A", some "B", some 30, some "a@b.com", some "Abcdefg!"⟩ [] "id1" 0 =
      (⟨201, .created "id1" msgUserCreated⟩,
        [⟨⟨"A", "B", 30, "a@b.com", .lit "Abcdefg!", 0⟩, "id1"⟩]) ∧
    isHasherOutput (SVal.lit "Abcdefg!") = false :=
  ⟨by decide, rfl⟩

/-- Claim C10: a registration whose age field is present but 0, or one of
whose string fields is present but empty, is rejected with the 400
missing-fields response, because the guard tests JavaScript truthiness. -/
theorem c10_falsy_fields_rejected (body : RegisterBody) (store : Store)
    (newId : String) (now : Nat)
    (h : body.age = some 0 ∨ body.firstName = some "" ∨ body.lastName = some "" ∨
      body.email = some "" ∨ body.password = some "") :
    createUser body store newId now = (⟨400, .msg msgAllFieldsRequired⟩, store) := by
  unfold createUser
  rcases h with h | h | h | h | h <;> simp [h, truthyNat, truthyStr]

/-- Claim C10, witness: the concrete registration with age 0 and every other
field present and non-empty is answered with the missing-fields 400. -/
theorem c10_zero_age_witness :
    createUser ⟨some "A", some "B", some 0, some "a@b.com", some "Abcdefg!"⟩ [] "id1" 0 =
      (⟨400, .msg msgAllFieldsRequired⟩, []) :=
  c10_falsy_fields_rejected _ _ _ _ (Or.inl rfl)

/-- Claim C2, counterexample: with email "a@b.com" and password "Secret1!"
both present, the empty store is answered 401 "Usuario no encontrado" while a
store holding that email with a different password's hash is answered 401
"Contraseña incorrecta" — the responses are not identical. -/
theorem c2_distinct_messages_counterexample : ¬ loginIndistinguishableAsStated := by
  intro h
  have := h ⟨some "s"⟩ 0 0 sampleLogin "a@b.com" "Secret1!" [] [sampleUserOther]
    sampleUserOther rfl rfl (by decide) (by decide) rfl (by decide) (by decide)
  exact absurd this (by decide)

/-- Claim C2, amended: the two authentication failures share status 401 but
their message bodies differ — "Usuario no encontrado" for an unknown email
versus "Contraseña incorrecta" for a non-matching password — so the response
does reveal whether the email exists. -/
theorem c2_both_401_but_messages_differ (env : Env) (now ttl : Nat)
    (body : LoginBody) (e p : String) (store1 store2 : Store) (u : UserWithId)
    (he : body.email = some e) (hp : body.password = some p)
    (hne : e ≠ "") (hnp : p ≠ "")
    (h1 : findUserByEmailService store1 e = none)
    (h2 : findUserByEmailService store2 e = some u)
    (hv : bcryptCompare p u.password = false) :
    loginUser env now ttl store1 body = ⟨401, .msg msgUserNotFound⟩ ∧
    loginUser env now ttl store2 body = ⟨401, .msg msgWrongPassword⟩ ∧
    msgUserNotFound ≠ msgWrongPassword := by
  have hte : truthyStr body.email = true := by simp [truthyStr, he, hne]
  have htp : truthyStr body.password = true := by simp [truthyStr, hp, hnp]
  have hse : strVal body.email = e := by simp [strVal, he]
  have hsp : strVal body.password = p := by simp [strVal, hp]
  refine ⟨?_, ?_, by decide⟩
  · simp [loginUser, hte, htp, hse, h1]
  · simp [loginUser, hte, htp, hse, hsp, h2, hv]

/-- Claim C2, witness for the amended claim at the concrete login
"a@b.com" / "Secret1!" against the empty store and against a store holding
the hash of a different password. -/
theorem c2_amended_witness :
    loginUser ⟨some "s"⟩ 0 0 [] sampleLogin = ⟨401, .msg msgUserNotFound⟩ ∧
    loginUser ⟨some "s"⟩ 0 0 [sampleUserOther] sampleLogin = ⟨401, .msg msgWrongPassword⟩ ∧
    msgUserNotFound ≠ msgWrongPassword :=
  c2_both_401_but_messages_differ ⟨some "s"⟩ 0 0 sampleLogin "a@b.com" "Secret1!"
    [] [sampleUserOther] sampleUserOther rfl rfl (by decide) (by decide) rfl
    (by decide) (by decide)

/-- Claim C4, counterexample: with no signing secret configured, the login
with valid credentials "a@b.com" / "Secret1!" is answered with a 500 error
response — the missing secret is surfaced per request, not at startup. -/
theorem c4_secret_surfaces_counterexample : ¬ secretNeverPerRequestAsStated := by
  intro h
  have := h ⟨none⟩ 0 0 [sampleUser] sampleLogin "a@b.com" "Secret1!" sampleUser
    rfl rfl (by decide) (by decide)
  exact this (by decide)

/-- Claim C4, amended: nothing checks the signing secret at startup; its
absence (or emptiness) is discovered inside the login handler on each
request with valid credentials and answered with a 500 error response
carrying "JWT_SECRET no definido". -/
theorem c4_missing_secret_is_per_request_500 (env : Env) (now ttl : Nat)
    (store : Store) (body : LoginBody) (e p : String) (u : UserWithId)
    (he : body.email = some e) (hp : body.password = some p)
    (hne : e ≠ "") (hnp : p ≠ "")
    (hf : findUserByEmailService store e = some u)
    (hv : bcryptCompare p u.password = true)
    (hs : truthyStr env.jwtSecret = false) :
    loginUser env now ttl store body = ⟨500, .err msgNoSecret⟩ := by
  have hte : truthyStr body.email = true := by simp [truthyStr, he, hne]
  have htp : truthyStr body.password = true := by simp [truthyStr, hp, hnp]
  have hse : strVal body.email = e := by simp [strVal, he]
  have hsp : strVal body.password = p := by simp [strVal, hp]
  simp [loginUser, hte, htp, hse, hsp, hf, hv, hs]

/-- Claim C4, witness for the amended claim: the concrete valid login against
an environment with no JWT_SECRET is answered 500. -/
theorem c4_amended_witness :
    loginUser ⟨none⟩ 0 0 [sampleUser] sampleLogin = ⟨500, .err msgNoSecret⟩ :=
  c4_missing_secret_is_per_request_500 ⟨none⟩ 0 0 [sampleUser] sampleLogin
    "a@b.com" "Secret1!" sampleUser rfl rfl (by decide) (by decide) (by decide)
    (by decide) rfl

/-- Claim C5, counterexample: in the registration whose age field is present
with value 0 and whose password is weak, the claim's order prescribes the
policy rejection with the rule-enumerating message, but the code answers with
the missing-fields message. -/
theorem c5_presence_counterexample : ¬ registrationFlowAsStated := by
  intro h
  have := ((h ⟨some "A", some "B", some 0, some "a@b.com", some "weak"⟩ [] "id1" 0).2
    "A" "B" 0 "a@b.com" "weak" rfl).1 (by decide)
  exact absurd this (by decide)

/-- Claim C5, amended: the first guard tests JavaScript truthiness — an
absent or empty string field, or an absent or zero age, is answered with the
missing-fields 400; past it the checks run in the claimed order: password
policy with the rule-enumerating message, then duplicate email, then
persistence with 201 carrying the store-assigned identifier; no record is
created on any error path. -/
theorem c5_registration_flow_characterised (body : RegisterBody) (store : Store)
    (newId : String) (now : Nat) :
    ((!truthyStr body.email || !truthyStr body.password || !truthyStr body.firstName
        || !truthyStr body.lastName || !truthyNat body.age) = true →
      createUser body store newId now = (⟨400, .msg msgAllFieldsRequired⟩, store)) ∧
    ((!truthyStr body.email || !truthyStr body.password || !truthyStr body.firstName
        || !truthyStr body.lastName || !truthyNat body.age) = false →
      (isValidPassword (strVal body.password) = false →
        createUser body store newId now = (⟨400, .msg msgWeakPassword⟩, store)) ∧
      (isValidPassword (strVal body.password) = true →
        (∀ u, findUserByEmailService store (strVal body.email) = some u →
          createUser body store newId now = (⟨400, .msg msgEmailExists⟩, store)) ∧
        (findUserByEmailService store (strVal body.email) = none →
          createUser body store newId now = (⟨201, .created newId msgUserCreated⟩,
            store ++ [⟨⟨strVal body.firstName, strVal body.lastName, natVal body.age,
              strVal body.email, .lit (strVal body.password), now⟩, newId⟩])))) := by
  constructor
  · intro h
    simp [createUser, h]
  · intro h
    constructor
    · intro hp
      simp [createUser, h, hp]
    · intro hp
      constructor
      · intro u hf
        simp [createUser, h, hp, hf]
      · intro hf
        simp [createUser, createUserService, h, hp, hf]

/-- Claim C6, counterexample: (i) with the email field present but empty the
handler answers 400 where the claim's order prescribes the 401 lookup
failure, and (ii) with valid credentials and no signing secret it answers a
500 error, not 200 with a token. -/
theorem c6_login_counterexample :
    ¬ loginFlowAsStated ∧
    loginUser ⟨some "s"⟩ 0 0 [] ⟨some "", some "x"⟩ = ⟨400, .msg msgLoginFieldsRequired⟩ ∧
    loginUser ⟨none⟩ 0 0 [sampleUser] sampleLogin = ⟨500, .err msgNoSecret⟩ := by
  refine ⟨?_, by decide, by decide⟩
  intro h
  obtain ⟨t, ht, -, -⟩ :=
    (((h ⟨none⟩ 0 0 [sampleUser] sampleLogin).2 "a@b.com" "Secret1!" rfl rfl).2
      sampleUser (by decide)).2 (by decide)
  have h500 : (loginUser ⟨none⟩ 0 0 [sampleUser] sampleLogin).status = 500 := by decide
  have hst : (500 : Nat) = 200 := by
    have hc := congrArg Resp.status ht
    rw [h500] at hc
    exact hc
  exact absurd hst (by decide)

/-- Claim C6, amended: loginUser answers 400 when email or password is absent
or empty; otherwise 401 when no record exists for the email; otherwise 401
when the password does not verify against the stored value; otherwise, when
the signing secret is configured and non-empty, 200 with a token signed with
that secret carrying the record's identifier and email — and a 500 error
response when it is not. -/
theorem c6_login_flow_characterised (env : Env) (now ttl : Nat) (store : Store)
    (body : LoginBody) :
    ((!truthyStr body.email || !truthyStr body.password) = true →
      loginUser env now ttl store body = ⟨400, .msg msgLoginFieldsRequired⟩) ∧
    ((!truthyStr body.email || !truthyStr body.password) = false →
      (findUserByEmailService store (strVal body.email) = none →
        loginUser env now ttl store body = ⟨401, .msg msgUserNotFound⟩) ∧
      (∀ u, findUserByEmailService store (strVal body.email) = some u →
        (bcryptCompare (strVal body.password) u.password = false →
          loginUser env now ttl store body = ⟨401, .msg msgWrongPassword⟩) ∧
        (bcryptCompare (strVal body.password) u.password = true →
          (truthyStr env.jwtSecret = false →
            loginUser env now ttl store body = ⟨500, .err msgNoSecret⟩) ∧
          (truthyStr env.jwtSecret = true →
            loginUser env now ttl store body =
              ⟨200, .token ⟨u.id, u.email, strVal env.jwtSecret, now + ttl⟩⟩)))) := by
  constructor
  · intro h
    simp [loginUser, h]
  · intro h
    constructor
    · intro hf
      simp [loginUser, h, hf]
    · intro u hf
      constructor
      · intro hv
        simp [loginUser, h, hf, hv]
      · intro hv
        constructor
        · intro hs
          simp [loginUser, h, hf, hv, hs]
        · intro hs
          simp [loginUser, jwtSign, h, hf, hv, hs]

/-- A partial update that carries no email field leaves every record's email
as it was. -/
theorem updateUserService_email_preserved (store : Store) (uid : String)
    (d : UpdateData) (h : d.email = none) :
    (updateUserService store uid d).map (fun r => r.email) =
      store.map (fun r => r.email) := by
  induction store with
  | nil => rfl
  | cons r rs ih =>
    simp only [updateUserService, List.map_cons, List.cons.injEq] at *
    refine ⟨?_, ih⟩
    by_cases hid : r.id == uid <;> simp [hid, applyUpdate, h]

/-- Claim C7, counterexample: an authenticated update whose body carries an
email field overwrites the stored email: updating record u1 with body email
"evil@x.com" turns the stored email "a@b.com" into "evil@x.com". -/
theorem c7_email_overwrite_counterexample : ¬ emailImmutableAsStated := by
  intro h
  have := h ⟨"u1", "a@b.com"⟩ [] ⟨none, none, none, some "evil@x.com", none, none⟩
    [sampleUser] 0
  exact absurd this (by decide)

/-- Claim C7, amended: the stored emails are unchanged by every authenticated
update whose body does not carry an email field; the controller forwards all
supplied body fields to the store's partial update, so a supplied email
replaces the stored one. -/
theorem c7_email_unchanged_without_email_field (u : Claims)
    (prm : List (String × String)) (body : UpdateBody) (store : Store) (salt : Nat)
    (h : body.email = none) :
    (updateUser (some u) prm body store salt).2.map (fun r => r.email) =
      store.map (fun r => r.email) :=
  updateUserService_email_preserved store u.uid (toUpdateData body salt)
    (by simp [toUpdateData, h])

/-- Claim C7, witness for the amended claim: a concrete authenticated update
of the first name only leaves the stored email list unchanged. -/
theorem c7_amended_witness :
    (updateUser (some ⟨"u1", "a@b.com"⟩) [] ⟨some "Maria", none, none, none, none, none⟩
        [sampleUser] 0).2.map (fun r => r.email) =
      [sampleUser].map (fun r => r.email) :=
  c7_email_unchanged_without_email_field ⟨"u1", "a@b.com"⟩ []
    ⟨some "Maria", none, none, none, none, none⟩ [sampleUser] 0 rfl

/-- Claim C8: the record an authenticated update or delete touches is the one
whose identifier comes from the verified token's claims: two requests that
differ only in client-supplied id fields of the body or in URL parameters
produce identical results, and every record with a different identifier
survives both operations. -/
theorem c8_target_resolved_from_token (u : Claims) (prm1 prm2 : List (String × String))
    (fn ln : Option String) (a : Option Nat) (e pw cid1 cid2 : Option String)
    (store : Store) (salt : Nat) :
    (updateUser (some u) prm1 ⟨fn, ln, a, e, pw, cid1⟩ store salt =
      updateUser (some u) prm2 ⟨fn, ln, a, e, pw, cid2⟩ store salt) ∧
    (deleteUser (some u) prm1 store = deleteUser (some u) prm2 store) ∧
    (∀ r ∈ store, r.id ≠ u.uid →
      r ∈ (updateUser (some u) prm1 ⟨fn, ln, a, e, pw, cid1⟩ store salt).2 ∧
      r ∈ (deleteUser (some u) prm1 store).2) := by
  refine ⟨rfl, rfl, fun r hr hne => ⟨?_, ?_⟩⟩
  · show r ∈ updateUserService store u.uid _
    exact List.mem_map.2 ⟨r, hr, by simp [hne]⟩
  · show r ∈ deleteUserService store u.uid
    exact List.mem_filter.2 ⟨hr, by simp [hne]⟩

/-- Claim C8, witness: in a two-record store, the record u2 of another user
survives an update and a delete performed under a token for u1, and the
results do not depend on the body id field or the URL parameters. -/
theorem c8_witness :
    (updateUser (some ⟨"u1", "a@b.com"⟩) [("id", "u2")]
        ⟨some "M", none, none, none, none, some "u2"⟩ [sampleUser] 0 =
      updateUser (some ⟨"u1", "a@b.com"⟩) []
        ⟨some "M", none, none, none, none, some "zzz"⟩ [sampleUser] 0) ∧
    (deleteUser (some ⟨"u1", "a@b.com"⟩) [("id", "u2")] [sampleUser] =
      deleteUser (some ⟨"u1", "a@b.com"⟩) [] [sampleUser]) ∧
    (∀ r ∈ [sampleUser], r.id ≠ "u1" →
      r ∈ (updateUser (some ⟨"u1", "a@b.com"⟩) [("id", "u2")]
        ⟨some "M", none, none, none, none, some "u2"⟩ [sampleUser] 0).2 ∧
      r ∈ (deleteUser (some ⟨"u1", "a@b.com"⟩) [("id", "u2")] [sampleUser]).2) :=
  c8_target_resolved_from_token ⟨"u1", "a@b.com"⟩ [("id", "u2")] []
    (some "M") none none none none (some "u2") (some "zzz") [sampleUser] 0

/-- Claim C9: in the composed protected routes the middleware is the sole
gate: when it resolves no identity, the response is the middleware's
unauthorized short-circuit and the handler never runs (the store is
untouched); when it resolves claims c, each route equals its handler run with
exactly that attached identity and the handler answers 200 — no handler
produces an authorization rejection of its own. -/
theorem c9_middleware_sole_gate (serverSecret : String) (now : Nat) (hdr : AuthHeader)
    (prm : List (String × String)) (body : UpdateBody) (store : Store) (salt : Nat) :
    (authenticate serverSecret now hdr = none →
      putProfileRoute serverSecret now hdr prm body store salt = (respUnauthorized, store) ∧
      deleteRoute serverSecret now hdr prm store = (respUnauthorized, store) ∧
      listRoute serverSecret now hdr store = (respUnauthorized, store)) ∧
    (∀ c, authenticate serverSecret now hdr = some c →
      putProfileRoute serverSecret now hdr prm body store salt =
        updateUser (some c) prm body store salt ∧
      (updateUser (some c) prm body store salt).1 = ⟨200, .msg msgUserUpdated⟩ ∧
      deleteRoute serverSecret now hdr prm store = deleteUser (some c) prm store ∧
      (deleteUser (some c) prm store).1 = ⟨200, .msg msgUserDeleted⟩ ∧
      listRoute serverSecret now hdr store = getUsers store ∧
      (getUsers store).1 = ⟨200, .users (getUsersService store)⟩) := by
  constructor
  · intro h
    refine ⟨?_, ?_, ?_⟩ <;> simp [putProfileRoute, deleteRoute, listRoute, withAuth, h]
  · intro c h
    refine ⟨?_, rfl, ?_, rfl, ?_, rfl⟩ <;>
      simp [putProfileRoute, deleteRoute, listRoute, withAuth, h]

end UserService
